import Mathlib

/-!
Verification development for `src/server.py` of the aigeon-search repository.

The file shallowly embeds the Python source: `parse_val` (lines 20-34) and the
`news_search` tool (lines 36-82).  Python runtime values are modelled by the
inductive type `PyVal`.  The builtin conversions `int` and `float` can raise
exceptions, and `parse_val` catches only `ValueError` and `TypeError`, so the
conversions are embedded twice, at two levels of precision:
- `pyIntE` and `pyFloatE` carry the exception path explicitly
  (`Except PyExc`), distinguishing the caught `ValueError`/`TypeError` from
  the uncaught `OverflowError` that CPython raises for an out-of-float-range
  integer; `parse_valE` is the embedding of `parse_val` over them, and
  `news_searchE` propagates an uncaught exception out of the tool function,
  as the source does (the coercions at lines 47-52 run before the `try` at
  line 72).
- `pyInt` and `pyFloat` are `Option`-valued value-level projections (a
  caught exception is `Option.none`), and `parse_val` over them gives the
  value of the source's `parse_val` on every input where no exception
  escapes; `parse_valE_refines` proves that wherever `parse_valE` returns a
  value, it is this one.  Theorems about request building are stated over
  this projection.

The outbound HTTP call made through aiohttp is modelled by a function from
the built request to an abstract `RemoteOutcome`; the `try`/`except` wrapper
of the source maps every failing outcome to the failure object, which is
what `handleOutcome` captures.

Modelling notes, each marked at its definition:
- Python `float` values are modelled as rationals; non-finite floats
  (`inf`, `nan`) and the exact decimal rendering of floats are outside the
  model (see the `PyVal` comment).
- `str.replace` with a one-character pattern replaces every occurrence of
  that character, which is a per-character map.
-/

namespace Aigeon

/-- Model of a Python runtime value as delivered to the tool function:
`None`, booleans, integers, floats (as rationals), strings, lists and
string-keyed dicts.  Floats are finite here: the non-finite CPython floats
`inf`, `-inf` and `nan` have no rational counterpart and stay outside the
model.  On those inputs `float()` is the identity and `str()` returns a
fixed text, while `int()` raises `OverflowError` (uncaught) on the
infinities and `ValueError` (caught) on `nan`; the uncaught-exception
behaviour of the source on such values is the same `OverflowError` escape
that `pyFloatE` exhibits on out-of-range integers, which are modelled. -/
inductive PyVal where
  | none : PyVal
  | bool : Bool → PyVal
  | int : ℤ → PyVal
  | float : ℚ → PyVal
  | str : String → PyVal
  | list : List PyVal → PyVal
  | dict : List (String × PyVal) → PyVal

/-- Python `value is None`, the test used on coerced latitude/longitude. -/
def PyVal.isNone : PyVal → Bool
  | PyVal.none => true
  | _ => false

/-- The `target_type` argument of `parse_val`: the source compares it against
the classes `str`, `int` and `float`, with a fall-through branch for any
other class. -/
inductive PyType where
  | tstr | tint | tfloat | tother
deriving DecidableEq

/-- Digit-run parser shared by the Python `int(...)` and `float(...)` string
grammars: decimal digits with single underscores allowed between digits
(CPython numeric-literal rule).  `acc` is the value so far, `cnt` the number
of digits consumed, `pu` whether the previous character was an underscore.
Returns the value and the digit count. -/
def parseUDigitsAux : Nat → Nat → Bool → List Char → Option (Nat × Nat)
  | acc, cnt, pu, [] => if pu then Option.none else Option.some (acc, cnt)
  | acc, cnt, pu, c :: cs =>
    if c.isDigit then
      parseUDigitsAux (acc * 10 + (c.toNat - 48)) (cnt + 1) false cs
    else if c = '_' then
      if pu then Option.none else parseUDigitsAux acc cnt true cs
    else Option.none

/-- A nonempty digit run must begin with a digit (no leading underscore). -/
def parseUDigits (l : List Char) : Option (Nat × Nat) :=
  match l with
  | [] => Option.none
  | c :: _ => if c.isDigit then parseUDigitsAux 0 0 false l else Option.none

/-- A possibly-empty digit run, used for the integer and fraction parts of a
float literal, where one of the two may be absent. -/
def parseOptUDigits (l : List Char) : Option (Nat × Nat) :=
  if l.isEmpty then Option.some (0, 0) else parseUDigits l

/-- Strip leading and trailing whitespace, as Python `int(...)` and
`float(...)` do on string arguments. -/
def stripChars (l : List Char) : List Char :=
  ((l.dropWhile Char.isWhitespace).reverse.dropWhile Char.isWhitespace).reverse

/-- Python `int(...)` on a whitespace-stripped character list: optional sign
followed by a digit run.  Anything else raises `ValueError`, modelled as
`Option.none`. -/
def pyIntOfChars : List Char → Option ℤ
  | [] => Option.none
  | c :: rest =>
    if c = '-' then (parseUDigits rest).map (fun p => -(p.1 : ℤ))
    else if c = '+' then (parseUDigits rest).map (fun p => (p.1 : ℤ))
    else (parseUDigits (c :: rest)).map (fun p => (p.1 : ℤ))

/-- Python `int(...)` applied to a string. -/
def pyIntOfString (s : String) : Option ℤ :=
  pyIntOfChars (stripChars s.data)

/-- Exponent suffix of a Python float literal: empty, or `e`/`E`, an optional
sign, and a digit run. -/
def parseExpPart : List Char → Option ℤ
  | [] => Option.some 0
  | c :: rest =>
    if c = 'e' ∨ c = 'E' then
      match rest with
      | '-' :: ds => (parseUDigits ds).map (fun p => -(p.1 : ℤ))
      | '+' :: ds => (parseUDigits ds).map (fun p => (p.1 : ℤ))
      | ds => (parseUDigits ds).map (fun p => (p.1 : ℤ))
    else Option.none

/-- Mantissa and exponent of a Python float literal (sign already removed):
digits, an optional dot with optional fraction digits, and an optional
exponent.  At least one mantissa digit is required.  Non-finite literals
(`inf`, `infinity`, `nan`), which a `Rat`-valued model cannot represent, are
outside the model; no claim depends on them. -/
def parseFloatBody (l : List Char) : Option ℚ :=
  let ip := l.takeWhile (fun c => !(c == '.' || c == 'e' || c == 'E'))
  let r1 := l.dropWhile (fun c => !(c == '.' || c == 'e' || c == 'E'))
  match r1 with
  | '.' :: r2 =>
    let fp := r2.takeWhile (fun c => !(c == 'e' || c == 'E'))
    let r3 := r2.dropWhile (fun c => !(c == 'e' || c == 'E'))
    if ip.isEmpty && fp.isEmpty then Option.none
    else
      match parseOptUDigits ip, parseOptUDigits fp, parseExpPart r3 with
      | Option.some iv, Option.some fv, Option.some e =>
        Option.some (((iv.1 : ℚ) + (fv.1 : ℚ) / (10 : ℚ) ^ (fv.2 : ℕ)) * (10 : ℚ) ^ e)
      | _, _, _ => Option.none
  | r1' =>
    match parseUDigits ip, parseExpPart r1' with
    | Option.some iv, Option.some e => Option.some ((iv.1 : ℚ) * (10 : ℚ) ^ e)
    | _, _ => Option.none

/-- Python `float(...)` on a whitespace-stripped character list: optional
sign, then mantissa and exponent. -/
def pyFloatOfChars : List Char → Option ℚ
  | [] => Option.none
  | c :: rest =>
    if c = '-' then (parseFloatBody rest).map (fun q => -q)
    else if c = '+' then parseFloatBody rest
    else parseFloatBody (c :: rest)

/-- Python `float(...)` applied to a string. -/
def pyFloatOfString (s : String) : Option ℚ :=
  pyFloatOfChars (stripChars s.data)

/-- Truncation toward zero, the behaviour of Python `int(...)` on a float. -/
def ratTrunc (x : ℚ) : ℤ :=
  Int.tdiv x.num (x.den : ℤ)

/-- Value-level projection of Python `int(value)`: identity on ints, 0/1 on
bools, truncation toward zero on floats, the string grammar on strings, and
`TypeError` (modelled as `Option.none`) on lists, dicts and `None`.  On the
`PyVal` domain `int()` raises only the `ValueError`/`TypeError` that
`parse_val` catches, so this `Option` view loses nothing here; the
exception-carrying embedding is `pyIntE`. -/
def pyInt : PyVal → Option ℤ
  | PyVal.none => Option.none
  | PyVal.bool b => Option.some (if b then 1 else 0)
  | PyVal.int n => Option.some n
  | PyVal.float x => Option.some (ratTrunc x)
  | PyVal.str s => pyIntOfString s
  | PyVal.list _ => Option.none
  | PyVal.dict _ => Option.none

/-- Value-level projection of Python `float(value)`: embedding on ints and
bools, identity on floats, the string grammar on strings, and `TypeError` on
lists, dicts and `None`.  CPython `float()` additionally raises an UNCAUGHT
`OverflowError` on integers of magnitude `2 ^ 1024 - 2 ^ 970` or more; that
raising path is not representable in an `Option` and is carried by
`pyFloatE` — this function is only the value of the conversion on the
non-raising inputs, and `parse_valE_refines` ties the two.  (On strings,
`float()` never overflows: an out-of-range literal saturates to `inf`,
returned here as its exact rational; the saturation itself is outside the
rational model and no claim depends on it.) -/
def pyFloat : PyVal → Option ℚ
  | PyVal.none => Option.none
  | PyVal.bool b => Option.some (if b then 1 else 0)
  | PyVal.int n => Option.some (n : ℚ)
  | PyVal.float x => Option.some x
  | PyVal.str s => pyFloatOfString s
  | PyVal.list _ => Option.none
  | PyVal.dict _ => Option.none

/-- Decimal rendering of a model float.  Python renders floats as their
shortest round-tripping decimal; the model only guarantees a total rendering,
since no claim depends on this text. -/
def ratStr (x : ℚ) : String :=
  if x.den = 1 then toString x.num ++ ".0" else toString x

mutual

/-- Python `repr(value)` for the values of the model, used by `str` on the
elements of containers.  String quoting is rendered with the ASCII
apostrophe. -/
def pyRepr : PyVal → String
  | PyVal.none => "None"
  | PyVal.bool true => "True"
  | PyVal.bool false => "False"
  | PyVal.int n => toString n
  | PyVal.float x => ratStr x
  | PyVal.str s => "\x27" ++ s ++ "\x27"
  | PyVal.list xs => "[" ++ String.intercalate ", " (pyReprList xs) ++ "]"
  | PyVal.dict fs => "\x7b" ++ String.intercalate ", " (pyReprFields fs) ++ "\x7d"

/-- Renderings of the elements of a Python list. -/
def pyReprList : List PyVal → List String
  | [] => []
  | v :: vs => pyRepr v :: pyReprList vs

/-- Renderings of the entries of a Python dict with string keys. -/
def pyReprFields : List (String × PyVal) → List String
  | [] => []
  | (k, v) :: fs =>
    ("\x27" ++ k ++ "\x27" ++ ": " ++ pyRepr v) :: pyReprFields fs

end

/-- Python `str(value)`: identity on strings, `repr`-based rendering of
containers, standard renderings of the scalar values.  It is total on the
model: `str` raises on none of these values. -/
def pyStr : PyVal → String
  | PyVal.none => "None"
  | PyVal.bool true => "True"
  | PyVal.bool false => "False"
  | PyVal.int n => toString n
  | PyVal.float x => ratStr x
  | PyVal.str s => s
  | PyVal.list xs => "[" ++ String.intercalate ", " (pyReprList xs) ++ "]"
  | PyVal.dict fs => "\x7b" ++ String.intercalate ", " (pyReprFields fs) ++ "\x7d"

/-- Embedding of `parse_val` (server.py lines 20-34): `None` is returned
unchanged; otherwise the value is converted to the target type inside a
`try` block, and a `ValueError` or `TypeError` (the `Option.none` results of
`pyInt`/`pyFloat`) is caught and turned into `None`. -/
def parse_val (value : PyVal) (target_type : PyType) : PyVal :=
  match value with
  | PyVal.none => PyVal.none
  | v =>
    match target_type with
    | PyType.tstr => PyVal.str (pyStr v)
    | PyType.tint =>
      match pyInt v with
      | Option.some n => PyVal.int n
      | Option.none => PyVal.none
    | PyType.tfloat =>
      match pyFloat v with
      | Option.some x => PyVal.float x
      | Option.none => PyVal.none
    | PyType.tother => v

/-- Python truthiness, used by the source in `if location_val:`.  `None` is
falsy; numbers are truthy when nonzero; strings, lists and dicts are truthy
when nonempty. -/
def pyTruthy : PyVal → Bool
  | PyVal.none => false
  | PyVal.bool b => b
  | PyVal.int n => decide (n ≠ 0)
  | PyVal.float x => decide (x ≠ 0)
  | PyVal.str s => decide (s ≠ "")
  | PyVal.list xs => !xs.isEmpty
  | PyVal.dict fs => !fs.isEmpty

/-- One pass of Python `str.replace` with a one-character pattern: every
occurrence of `a` becomes `b`. -/
def replaceChar (a b : Char) (s : String) : String :=
  String.mk (s.data.map (fun c => if c = a then b else c))

/-- The location cleanup of server.py line 56:
`location_val.replace("_", " ").replace(",", " ")` — first every underscore
becomes a space, then every comma becomes a space. -/
def processLocStr (s : String) : String :=
  replaceChar ',' ' ' (replaceChar '_' ' ' s)

/-- Lines 50 and 54-56: coerce `location` to a string, then, when the result
is truthy, replace underscores and commas by spaces. -/
def locNorm (location : PyVal) : PyVal :=
  if pyTruthy (parse_val location PyType.tstr) then
    match parse_val location PyType.tstr with
    | PyVal.str s => PyVal.str (processLocStr s)
    | v => v
  else parse_val location PyType.tstr

/-- JSON values, the decoded bodies the remote service may return. -/
inductive Json where
  | jnull : Json
  | jbool : Bool → Json
  | jnum : ℚ → Json
  | jstr : String → Json
  | jarr : List Json → Json
  | jobj : List (String × Json) → Json

/-- The outbound HTTP request assembled by `news_search` (lines 44-45,
59-70 and the keyword arguments of `session.get` on line 75).  The header
value for the API key is optional because `os.getenv` may return `None`. -/
structure HttpRequest where
  method : String
  url : String
  headers : List (String × Option String)
  params : List (String × PyVal)
  timeout : Nat

/-- Result of attempting to decode the response body as JSON
(`await r.json()`): either a decoded value or a raised decoding error
(invalid JSON, or aiohttp's content-type check), carrying the stringified
exception. -/
inductive JsonBody where
  | ok : Json → JsonBody
  | decodeErr : String → JsonBody

/-- Abstract outcome of the remote call.  `netError` covers every exception
raised before a response is available: failures while constructing or
sending the request, connection errors and the 5-second timeout, carrying
the stringified exception.  `response` is a response surfaced to the client
(after aiohttp's redirect following — aiohttp auto-follows only statuses
301, 302, 303, 307 and 308), with its status code and the result of decoding
its body.  Realizability note: for the empty-body statuses (1xx, 204, 304)
aiohttp delivers no payload, so a surfaced response at such a status can
only carry a `decodeErr` body (`await r.json()` raises there); general
theorems quantify over all outcomes, and concrete refutations are staged
only at realizable ones, e.g. a body-bearing 300. -/
inductive RemoteOutcome where
  | netError : String → RemoteOutcome
  | response : Nat → JsonBody → RemoteOutcome

/-- The fixed request URL (line 44). -/
def searchUrl : String := "https://aigeon-news-search1.p.rapidapi.com/api/search"

/-- The fixed RapidAPI host (line 45). -/
def rapidHost : String := "aigeon-news-search1.p.rapidapi.com"

/-- Lines 47-70: coerce the five parameters, normalize the location, and
build the query-parameter dict in insertion order: `q` and `size` always;
`location` when truthy; `latitude` and `longitude` when not `None`. -/
def buildParams (q size location latitude longitude : PyVal) :
    List (String × PyVal) :=
  let query := parse_val q PyType.tstr
  let size_val := parse_val size PyType.tint
  let location_val := locNorm location
  let latitude_val := parse_val latitude PyType.tfloat
  let longitude_val := parse_val longitude PyType.tfloat
  [("q", query), ("size", size_val)]
    ++ (if pyTruthy location_val then [("location", location_val)] else [])
    ++ (if latitude_val.isNone then [] else [("latitude", latitude_val)])
    ++ (if longitude_val.isNone then [] else [("longitude", longitude_val)])

/-- The full outbound request: `GET` to the fixed URL with the fixed host
header, the API key header read from the environment (the `rapid_api_key`
argument models `os.getenv("RAPID_API_KEY")`, line 14), the parameter dict,
and the fixed 5-second timeout (line 75). -/
def buildRequest (rapid_api_key : Option String)
    (q size location latitude longitude : PyVal) : HttpRequest :=
  { method := "GET"
    url := searchUrl
    headers := [("x-rapidapi-host", Option.some rapidHost),
                ("x-rapidapi-key", rapid_api_key)]
    params := buildParams q size location latitude longitude
    timeout := 5 }

/-- The failure object of line 82: a dict with `status` set to `failed` and
`reason` set to the stringified exception. -/
def failedResult (reason : String) : Json :=
  Json.jobj [("status", Json.jstr "failed"), ("reason", Json.jstr reason)]

/-- Stringification of the `aiohttp.ClientResponseError` raised by
`raise_for_status=True` on a status of 400 or above.  The exact text comes
from aiohttp; the model keeps only that it is a function of the status. -/
def httpErrorMsg (status : Nat) : String :=
  toString status ++ ", message=..."

/-- Lines 72-82: the body of the `try` block and the `except` handler.
aiohttp's `raise_for_status=True` raises exactly when the status is 400 or
above (`ClientResponse.ok` is false); the raised error, a network error, or
a body-decoding error is caught by the bare `except` and becomes the failure
object.  A successfully decoded list is wrapped under a `result` key; any
other decoded value is returned unchanged. -/
def handleOutcome : RemoteOutcome → Json
  | RemoteOutcome.netError msg => failedResult msg
  | RemoteOutcome.response status body =>
    if 400 ≤ status then failedResult (httpErrorMsg status)
    else
      match body with
      | JsonBody.decodeErr msg => failedResult msg
      | JsonBody.ok (Json.jarr xs) => Json.jobj [("result", Json.jarr xs)]
      | JsonBody.ok j => j

/-- Embedding of the tool function `news_search` (lines 36-82).  The remote
service, the network and aiohttp's transmission are abstracted as `remote`,
a function from the built request to its outcome; everything else follows
the source: build the request, consult the remote, and map the outcome. -/
def news_search (rapid_api_key : Option String)
    (q size location latitude longitude : PyVal)
    (remote : HttpRequest → RemoteOutcome) : Json :=
  handleOutcome (remote (buildRequest rapid_api_key q size location latitude longitude))

/-- Whether an outcome lands in the `except` handler: a pre-response error,
a status of 400 or above, or a decoding failure. -/
def RemoteOutcome.isFailure : RemoteOutcome → Bool
  | RemoteOutcome.netError _ => true
  | RemoteOutcome.response status body =>
    (400 ≤ status : Bool)
      || (match body with
          | JsonBody.decodeErr _ => true
          | JsonBody.ok _ => false)

/-- The stringified exception a failing outcome produces: the network error
text, the HTTP-error text for a status of 400 or above, or the decoding
error text. -/
def failureReason : RemoteOutcome → String
  | RemoteOutcome.netError msg => msg
  | RemoteOutcome.response status body =>
    if 400 ≤ status then httpErrorMsg status
    else
      match body with
      | JsonBody.decodeErr msg => msg
      | JsonBody.ok _ => ""

/-- Exceptions a Python builtin conversion can raise on the modelled value
domain.  `parse_val` (server.py line 33) catches exactly `ValueError` and
`TypeError`; an `OverflowError` passes through its `except` clause. -/
inductive PyExc where
  | valueError : String → PyExc
  | typeError : String → PyExc
  | overflowError : String → PyExc

/-- The smallest magnitude at which CPython `float(n)` overflows for an
integer `n`.  `float()` rounds to the nearest double (ties to even); every
integer of magnitude at least `2 ^ 1024 - 2 ^ 970` — the midpoint between
the largest finite double `2 ^ 1024 - 2 ^ 971` and `2 ^ 1024` — rounds to
`2 ^ 1024` and raises `OverflowError`, while everything strictly below it
converts. -/
def floatOverflowBound : ℕ := 2 ^ 1024 - 2 ^ 970

/-- Python `int(value)` with the exception path explicit: `ValueError` on a
malformed string, `TypeError` on `None`, lists and dicts.  On the modelled
(finite-float) domain `int()` raises nothing `parse_val` fails to catch. -/
def pyIntE : PyVal → Except PyExc ℤ
  | PyVal.none => Except.error (PyExc.typeError "int() argument must be a string or a number, not NoneType")
  | PyVal.bool b => Except.ok (if b then 1 else 0)
  | PyVal.int n => Except.ok n
  | PyVal.float x => Except.ok (ratTrunc x)
  | PyVal.str s =>
    match pyIntOfString s with
    | Option.some n => Except.ok n
    | Option.none => Except.error (PyExc.valueError "invalid literal for int() with base 10")
  | PyVal.list _ => Except.error (PyExc.typeError "int() argument must be a string or a number, not list")
  | PyVal.dict _ => Except.error (PyExc.typeError "int() argument must be a string or a number, not dict")

/-- Python `float(value)` with the exception path explicit: an integer of
magnitude `floatOverflowBound` or more raises `OverflowError`, which
`parse_val` does NOT catch; a malformed string raises `ValueError` and
`None`, lists and dicts raise `TypeError`, both caught. -/
def pyFloatE : PyVal → Except PyExc ℚ
  | PyVal.none => Except.error (PyExc.typeError "float() argument must be a string or a number, not NoneType")
  | PyVal.bool b => Except.ok (if b then 1 else 0)
  | PyVal.int n =>
    if n.natAbs < floatOverflowBound then Except.ok (n : ℚ)
    else Except.error (PyExc.overflowError "int too large to convert to float")
  | PyVal.float x => Except.ok x
  | PyVal.str s =>
    match pyFloatOfString s with
    | Option.some x => Except.ok x
    | Option.none => Except.error (PyExc.valueError "could not convert string to float")
  | PyVal.list _ => Except.error (PyExc.typeError "float() argument must be a string or a number, not list")
  | PyVal.dict _ => Except.error (PyExc.typeError "float() argument must be a string or a number, not dict")

/-- Embedding of `parse_val` (server.py lines 20-34) with the exception path
explicit: `None` passes through; the conversion runs inside the `try`; a
raised `ValueError` or `TypeError` is caught by line 33 and becomes `None`;
any other exception — the `OverflowError` of `pyFloatE` — is not matched by
the `except` clause and propagates to the caller. -/
def parse_valE (value : PyVal) (target_type : PyType) : Except PyExc PyVal :=
  match value with
  | PyVal.none => Except.ok PyVal.none
  | v =>
    match target_type with
    | PyType.tstr => Except.ok (PyVal.str (pyStr v))
    | PyType.tint =>
      match pyIntE v with
      | Except.ok n => Except.ok (PyVal.int n)
      | Except.error (PyExc.valueError _) => Except.ok PyVal.none
      | Except.error (PyExc.typeError _) => Except.ok PyVal.none
      | Except.error e => Except.error e
    | PyType.tfloat =>
      match pyFloatE v with
      | Except.ok x => Except.ok (PyVal.float x)
      | Except.error (PyExc.valueError _) => Except.ok PyVal.none
      | Except.error (PyExc.typeError _) => Except.ok PyVal.none
      | Except.error e => Except.error e
    | PyType.tother => Except.ok v

/-- Embedding of `news_search` with the exception path of the coercion step
explicit.  The five `parse_val` calls of lines 47-52 run in source order
BEFORE the `try` of line 72, so the first uncaught exception among them
propagates out of the tool function; when none raises, each call's value is
exactly the corresponding `parse_val` value (`parse_valE_refines`), and the
rest of the function body is `news_search`. -/
def news_searchE (rapid_api_key : Option String)
    (q size location latitude longitude : PyVal)
    (remote : HttpRequest → RemoteOutcome) : Except PyExc Json :=
  match parse_valE q PyType.tstr with
  | Except.error e => Except.error e
  | Except.ok _ =>
    match parse_valE size PyType.tint with
    | Except.error e => Except.error e
    | Except.ok _ =>
      match parse_valE location PyType.tstr with
      | Except.error e => Except.error e
      | Except.ok _ =>
        match parse_valE latitude PyType.tfloat with
        | Except.error e => Except.error e
        | Except.ok _ =>
          match parse_valE longitude PyType.tfloat with
          | Except.error e => Except.error e
          | Except.ok _ =>
            Except.ok
              (news_search rapid_api_key q size location latitude longitude remote)

/-! Helper lemmas shared by the claim theorems. -/

/-- The `isNone` test holds exactly on the `None` value. -/
theorem PyVal.isNone_iff (v : PyVal) : v.isNone = true ↔ v = PyVal.none := by
  cases v <;> simp [PyVal.isNone]

/-- The query parameter `q` is always present, carrying the coerced query. -/
theorem buildParams_q_mem (q size location latitude longitude : PyVal) :
    ("q", parse_val q PyType.tstr) ∈ buildParams q size location latitude longitude := by
  simp [buildParams]

/-- The query parameter `size` is always present, carrying the coerced size. -/
theorem buildParams_size_mem (q size location latitude longitude : PyVal) :
    ("size", parse_val size PyType.tint) ∈ buildParams q size location latitude longitude := by
  simp [buildParams]

/-- Elements that fail the predicate survive `dropWhile`. -/
theorem mem_dropWhile_of_neg {α : Type} (p : α → Bool) (a : α) :
    ∀ l : List α, a ∈ l → p a = false → a ∈ l.dropWhile p := by
  intro l
  induction l with
  | nil => intro h _; exact absurd h (List.not_mem_nil a)
  | cons b t ih =>
    intro h hp
    rcases List.mem_cons.mp h with rfl | h'
    · rw [List.dropWhile_cons, hp]
      simp
    · rw [List.dropWhile_cons]
      cases hb : p b with
      | true => simpa using ih h' hp
      | false => simp [List.mem_cons.mpr (Or.inr h')]

/-- Non-whitespace characters survive the whitespace strip. -/
theorem mem_stripChars (a : Char) (l : List Char) (h : a ∈ l)
    (hw : a.isWhitespace = false) : a ∈ stripChars l := by
  unfold stripChars
  rw [List.mem_reverse]
  apply mem_dropWhile_of_neg _ _ _ _ hw
  rw [List.mem_reverse]
  exact mem_dropWhile_of_neg _ _ _ h hw

/-- A digit run containing a dot is rejected, whatever the parser state. -/
theorem parseUDigitsAux_dot (l : List Char) :
    ∀ (acc cnt : Nat) (pu : Bool), '.' ∈ l →
      parseUDigitsAux acc cnt pu l = Option.none := by
  have hd : ('.' : Char).isDigit = false := rfl
  have hu : ¬ ('.' : Char) = '_' := by decide
  induction l with
  | nil => intro _ _ _ h; exact absurd h (List.not_mem_nil _)
  | cons c cs ih =>
    intro acc cnt pu h
    rcases List.mem_cons.mp h with rfl | h'
    · simp [parseUDigitsAux, hd, hu]
    · by_cases hcd : c.isDigit
      · simp [parseUDigitsAux, hcd, ih _ _ _ h']
      · by_cases hcu : c = '_'
        · simp only [parseUDigitsAux, hcd, Bool.false_eq_true, if_false, hcu, if_true]
          by_cases hpu : pu = true
          · simp [hpu]
          · simp [hpu, ih _ _ _ h']
        · simp [parseUDigitsAux, hcd, hcu]

/-- A digit run containing a dot is rejected. -/
theorem parseUDigits_dot (l : List Char) (h : '.' ∈ l) :
    parseUDigits l = Option.none := by
  cases l with
  | nil => exact absurd h (List.not_mem_nil _)
  | cons c cs =>
    unfold parseUDigits
    by_cases hcd : c.isDigit
    · simp [hcd, parseUDigitsAux_dot _ _ _ _ h]
    · simp [hcd]

/-- Python `int` on a character list containing a dot raises. -/
theorem pyIntOfChars_dot (l : List Char) (h : '.' ∈ l) :
    pyIntOfChars l = Option.none := by
  cases l with
  | nil => exact absurd h (List.not_mem_nil _)
  | cons c rest =>
    rcases List.mem_cons.mp h with heq | h'
    · have h1 : ¬ ('.' : Char) = '-' := by decide
      have h2 : ¬ ('.' : Char) = '+' := by decide
      subst heq
      simp [pyIntOfChars, h1, h2,
        parseUDigits_dot _ (List.mem_cons_self '.' rest)]
    · by_cases hm : c = '-'
      · simp [pyIntOfChars, hm, parseUDigits_dot _ h']
      · by_cases hp : c = '+'
        · simp [pyIntOfChars, hm, hp, parseUDigits_dot _ h']
        · simp [pyIntOfChars, hm, hp,
            parseUDigits_dot _ (List.mem_cons.mpr (Or.inr h'))]

/-- Python `int` on a string containing a dot raises `ValueError`. -/
theorem pyIntOfString_dot (s : String) (h : '.' ∈ s.data) :
    pyIntOfString s = Option.none := by
  unfold pyIntOfString
  exact pyIntOfChars_dot _ (mem_stripChars _ _ h rfl)

/-- Coercion to `str` never raises: the exception-aware embedding returns
exactly the value-level `parse_val` result on every input. -/
theorem parse_valE_tstr_ok (v : PyVal) :
    parse_valE v PyType.tstr = Except.ok (parse_val v PyType.tstr) := by
  cases v <;> rfl

/-- Coercion to `int` raises nothing `parse_val` fails to catch on the
modelled domain: the exception-aware embedding returns exactly the
value-level `parse_val` result on every input. -/
theorem parse_valE_tint_ok (v : PyVal) :
    parse_valE v PyType.tint = Except.ok (parse_val v PyType.tint) := by
  cases v with
  | str s =>
    cases hp : pyIntOfString s with
    | none => simp [parse_valE, pyIntE, parse_val, pyInt, hp]
    | some n => simp [parse_valE, pyIntE, parse_val, pyInt, hp]
  | none => rfl
  | bool b => rfl
  | int n => rfl
  | float x => rfl
  | list xs => rfl
  | dict fs => rfl

/-- Coercion to `float` either agrees with the value-level `parse_val` or
raises (the uncaught integer overflow). -/
theorem parse_valE_tfloat_refines (v : PyVal) :
    parse_valE v PyType.tfloat = Except.ok (parse_val v PyType.tfloat) ∨
      ∃ e, parse_valE v PyType.tfloat = Except.error e := by
  cases v with
  | int n =>
    by_cases hb : n.natAbs < floatOverflowBound
    · exact Or.inl (by simp [parse_valE, pyFloatE, hb, parse_val, pyFloat])
    · exact Or.inr ⟨PyExc.overflowError "int too large to convert to float",
        by simp [parse_valE, pyFloatE, hb]⟩
  | str s =>
    cases hp : pyFloatOfString s with
    | none => exact Or.inl (by simp [parse_valE, pyFloatE, parse_val, pyFloat, hp])
    | some x => exact Or.inl (by simp [parse_valE, pyFloatE, parse_val, pyFloat, hp])
  | none => exact Or.inl rfl
  | bool b => exact Or.inl rfl
  | float x => exact Or.inl rfl
  | list xs => exact Or.inl rfl
  | dict fs => exact Or.inl rfl

/-- parse_val is the non-raising projection of parse_valE: wherever the
exception-aware embedding returns a value, it is the parse_val value. -/
theorem parse_valE_refines (v : PyVal) (t : PyType) :
    parse_valE v t = Except.ok (parse_val v t) ∨
      ∃ e, parse_valE v t = Except.error e := by
  cases t with
  | tstr => exact Or.inl (parse_valE_tstr_ok v)
  | tint => exact Or.inl (parse_valE_tint_ok v)
  | tfloat => exact parse_valE_tfloat_refines v
  | tother => cases v <;> exact Or.inl rfl

/-- When neither float coercion raises, the exception-aware tool function
agrees with `news_search` (the other three coercions never raise). -/
theorem news_searchE_agrees (key : Option String)
    (q size location latitude longitude : PyVal)
    (remote : HttpRequest → RemoteOutcome)
    (hla : parse_valE latitude PyType.tfloat
       = Except.ok (parse_val latitude PyType.tfloat))
    (hlo : parse_valE longitude PyType.tfloat
       = Except.ok (parse_val longitude PyType.tfloat)) :
    news_searchE key q size location latitude longitude remote
      = Except.ok (news_search key q size location latitude longitude remote) := by
  unfold news_searchE
  rw [parse_valE_tstr_ok q, parse_valE_tint_ok size, parse_valE_tstr_ok location,
    hla, hlo]

/-- The character data of the normalized location is the two-pass
replacement over the input characters. -/
theorem processLocStr_data (s : String) :
    (processLocStr s).data
      = (s.data.map (fun c => if c = '_' then ' ' else c)).map
          (fun c => if c = ',' then ' ' else c) := rfl

/-- The location cleanup never produces an underscore or a comma. -/
theorem processLocStr_no_sep (s : String) :
    ∀ c ∈ (processLocStr s).data, c ≠ '_' ∧ c ≠ ',' := by
  intro c hc
  rw [processLocStr_data] at hc
  rcases List.mem_map.mp hc with ⟨y, hy, rfl⟩
  rcases List.mem_map.mp hy with ⟨z, _, rfl⟩
  have hw : (if z = '_' then ' ' else z) ≠ '_' := by
    by_cases h1 : z = '_'
    · rw [if_pos h1]; decide
    · rw [if_neg h1]; exact h1
  refine ⟨?_, ?_⟩
  · by_cases h2 : (if z = '_' then ' ' else z) = ','
    · rw [if_pos h2]; decide
    · rw [if_neg h2]; exact hw
  · by_cases h2 : (if z = '_' then ' ' else z) = ','
    · rw [if_pos h2]; decide
    · rw [if_neg h2]; exact h2

/-- The location cleanup preserves nonemptiness. -/
theorem processLocStr_ne_empty (s : String) (h : s ≠ "") :
    processLocStr s ≠ "" := by
  intro he
  apply h
  have hd : (processLocStr s).data = [] := by rw [he]
  rw [processLocStr_data] at hd
  simp only [List.map_eq_nil_iff] at hd
  cases s with
  | mk d =>
    cases hd
    rfl

/-- On a location coercing to a truthy string, the normalized location is
the cleaned string. -/
theorem locNorm_of_str (location : PyVal) (s : String)
    (h : parse_val location PyType.tstr = PyVal.str s) (hs : s ≠ "") :
    locNorm location = PyVal.str (processLocStr s) := by
  unfold locNorm
  rw [h]
  simp [pyTruthy, hs]

/-- C1: on every failing outcome of the remote call — a network or timeout or
construction error, a status of 400 or above, or an invalid JSON body —
`news_search` returns the object with `status` set to `failed` and `reason`
set to the stringified error; the function is total, so no exception
propagates. -/
theorem C1_failure_returns_failed_object
    (key : Option String) (q size location latitude longitude : PyVal)
    (remote : HttpRequest → RemoteOutcome)
    (h : (remote (buildRequest key q size location latitude longitude)).isFailure = true) :
    news_search key q size location latitude longitude remote
      = failedResult
          (failureReason (remote (buildRequest key q size location latitude longitude))) := by
  unfold news_search
  cases ho : remote (buildRequest key q size location latitude longitude) with
  | netError msg => simp [handleOutcome, failureReason]
  | response status body =>
    rw [ho] at h
    by_cases hs : 400 ≤ status
    · simp [handleOutcome, failureReason, hs]
    · cases body with
      | decodeErr msg => simp [handleOutcome, failureReason, hs]
      | ok j => simp [RemoteOutcome.isFailure, hs] at h

/-- Witness for C1 at a concrete timeout failure. -/
theorem C1_witness :
    news_search Option.none (PyVal.str "x") (PyVal.int 10) PyVal.none PyVal.none PyVal.none
        (fun _ => RemoteOutcome.netError "TimeoutError")
      = failedResult "TimeoutError" :=
  C1_failure_returns_failed_object Option.none (PyVal.str "x") (PyVal.int 10)
    PyVal.none PyVal.none PyVal.none
    (fun _ => RemoteOutcome.netError "TimeoutError") rfl

/-- C2: on a successful remote call (a surfaced response below status 400
whose body decodes), an array body is wrapped as an object under the key
`result`, and an object body is returned unchanged. -/
theorem C2_success_array_wrapped_object_passthrough
    (key : Option String) (q size location latitude longitude : PyVal)
    (remote : HttpRequest → RemoteOutcome) (status : Nat) (j : Json)
    (h : remote (buildRequest key q size location latitude longitude)
       = RemoteOutcome.response status (JsonBody.ok j))
    (hs : status < 400) :
    (∀ xs, j = Json.jarr xs →
      news_search key q size location latitude longitude remote
        = Json.jobj [("result", Json.jarr xs)]) ∧
    (∀ fs, j = Json.jobj fs →
      news_search key q size location latitude longitude remote = Json.jobj fs) := by
  have hs' : ¬ 400 ≤ status := Nat.not_le.mpr hs
  constructor
  · rintro xs rfl
    unfold news_search
    rw [h]
    simp [handleOutcome, hs']
  · rintro fs rfl
    unfold news_search
    rw [h]
    simp [handleOutcome, hs']

/-- Witness for C2: a concrete array body is wrapped under `result`. -/
theorem C2_witness :
    news_search Option.none (PyVal.str "climate change") (PyVal.int 5)
        PyVal.none PyVal.none PyVal.none
        (fun _ => RemoteOutcome.response 200
          (JsonBody.ok (Json.jarr [Json.jstr "A", Json.jstr "B"])))
      = Json.jobj [("result", Json.jarr [Json.jstr "A", Json.jstr "B"])] :=
  (C2_success_array_wrapped_object_passthrough Option.none (PyVal.str "climate change")
      (PyVal.int 5) PyVal.none PyVal.none PyVal.none
      (fun _ => RemoteOutcome.response 200
        (JsonBody.ok (Json.jarr [Json.jstr "A", Json.jstr "B"])))
      200 (Json.jarr [Json.jstr "A", Json.jstr "B"]) rfl (by decide)).1
    [Json.jstr "A", Json.jstr "B"] rfl

/-- C6 counterexample: a surfaced response with the non-2xx status 300
(Multiple Choices) and a JSON object body is returned as that body, not as
the failure object — aiohttp's `raise_for_status` only raises at status 400
and above.  The refutation is staged at a realizable outcome: 300 is not in
aiohttp's auto-redirect set (301, 302, 303, 307, 308), is not an empty-body
status, and may carry a JSON payload that `await r.json()` decodes
normally.  (A 304 would not do: aiohttp delivers no payload for it, so its
body decoding always fails and the failure object is returned there via the
decode path.) -/
theorem C6_counterexample :
    news_search Option.none (PyVal.str "x") (PyVal.int 10) PyVal.none PyVal.none PyVal.none
        (fun _ => RemoteOutcome.response 300
          (JsonBody.ok (Json.jobj [("a", Json.jnum 1)])))
      = Json.jobj [("a", Json.jnum 1)] ∧ ¬(200 ≤ 300 ∧ 300 ≤ 299) :=
  ⟨rfl, by decide⟩

/-- C6 (amended): every surfaced response with status 400 or above — 401 in
particular — is treated as a request failure and mapped to the failure
object, with no exception escaping. -/
theorem C6_amended_http_error_failure
    (key : Option String) (q size location latitude longitude : PyVal)
    (remote : HttpRequest → RemoteOutcome) (status : Nat) (body : JsonBody)
    (h : remote (buildRequest key q size location latitude longitude)
       = RemoteOutcome.response status body)
    (hs : 400 ≤ status) :
    news_search key q size location latitude longitude remote
      = failedResult (httpErrorMsg status) := by
  unfold news_search
  rw [h]
  simp [handleOutcome, hs]

/-- Witness for the amended C6 at a concrete 401 response. -/
theorem C6_amended_witness :
    news_search Option.none (PyVal.str "x") (PyVal.int 10) PyVal.none PyVal.none PyVal.none
        (fun _ => RemoteOutcome.response 401 (JsonBody.ok Json.jnull))
      = failedResult (httpErrorMsg 401) :=
  C6_amended_http_error_failure Option.none (PyVal.str "x") (PyVal.int 10)
    PyVal.none PyVal.none PyVal.none
    (fun _ => RemoteOutcome.response 401 (JsonBody.ok Json.jnull))
    401 (JsonBody.ok Json.jnull) rfl (by decide)

/-- C7: every invocation sends a `GET` to the fixed search URL, with the
fixed host header, the API-key header taken from the `RAPID_API_KEY`
environment value, and the fixed 5-second timeout; `news_search` consults
the remote exactly at this request. -/
theorem C7_fixed_request_shape
    (key : Option String) (q size location latitude longitude : PyVal)
    (remote : HttpRequest → RemoteOutcome) :
    (buildRequest key q size location latitude longitude).method = "GET" ∧
    (buildRequest key q size location latitude longitude).url
      = "https://aigeon-news-search1.p.rapidapi.com/api/search" ∧
    (buildRequest key q size location latitude longitude).headers
      = [("x-rapidapi-host", Option.some "aigeon-news-search1.p.rapidapi.com"),
         ("x-rapidapi-key", key)] ∧
    (buildRequest key q size location latitude longitude).timeout = 5 ∧
    news_search key q size location latitude longitude remote
      = handleOutcome (remote (buildRequest key q size location latitude longitude)) :=
  ⟨rfl, rfl, rfl, rfl, rfl⟩

/-- C8: `news_search` is deterministic given the remote behaviour — two
invocations with identical arguments whose remotes agree on the built
request return identical results. -/
theorem C8_deterministic
    (key : Option String) (q size location latitude longitude : PyVal)
    (remote1 remote2 : HttpRequest → RemoteOutcome)
    (h : remote1 (buildRequest key q size location latitude longitude)
       = remote2 (buildRequest key q size location latitude longitude)) :
    news_search key q size location latitude longitude remote1
      = news_search key q size location latitude longitude remote2 := by
  unfold news_search
  rw [h]

/-- Witness for C8 at a concrete repeated invocation. -/
theorem C8_witness :
    news_search Option.none (PyVal.str "x") (PyVal.int 10) PyVal.none PyVal.none PyVal.none
        (fun _ => RemoteOutcome.response 200 (JsonBody.ok (Json.jobj [])))
      = news_search Option.none (PyVal.str "x") (PyVal.int 10) PyVal.none PyVal.none PyVal.none
          (fun _ => RemoteOutcome.response 200 (JsonBody.ok (Json.jobj []))) :=
  C8_deterministic Option.none (PyVal.str "x") (PyVal.int 10) PyVal.none PyVal.none PyVal.none
    (fun _ => RemoteOutcome.response 200 (JsonBody.ok (Json.jobj [])))
    (fun _ => RemoteOutcome.response 200 (JsonBody.ok (Json.jobj []))) rfl

/-- C9: a successfully decoded body that is not an array is returned
unchanged, even when it is a bare scalar; in that case the returned value is
not a JSON object. -/
theorem C9_scalar_body_passthrough
    (key : Option String) (q size location latitude longitude : PyVal)
    (remote : HttpRequest → RemoteOutcome) (status : Nat) (j : Json)
    (h : remote (buildRequest key q size location latitude longitude)
       = RemoteOutcome.response status (JsonBody.ok j))
    (hs : status < 400)
    (hna : ∀ xs, j ≠ Json.jarr xs) :
    news_search key q size location latitude longitude remote = j ∧
    ((∀ fs, j ≠ Json.jobj fs) →
      ∀ fs, news_search key q size location latitude longitude remote ≠ Json.jobj fs) := by
  have hs' : ¬ 400 ≤ status := Nat.not_le.mpr hs
  have hr : news_search key q size location latitude longitude remote = j := by
    unfold news_search
    rw [h]
    cases j with
    | jarr xs => exact absurd rfl (hna xs)
    | jnull => simp [handleOutcome, hs']
    | jbool b => simp [handleOutcome, hs']
    | jnum x => simp [handleOutcome, hs']
    | jstr s => simp [handleOutcome, hs']
    | jobj fs => simp [handleOutcome, hs']
  exact ⟨hr, fun hno fs heq => hno fs (hr ▸ heq)⟩

/-- C3: the outgoing parameter set always contains `q` and `size` with their
coerced values (even when those are `None`); it contains `location` exactly
when the normalized location is truthy; and it contains `latitude`
(respectively `longitude`) exactly when the coerced value is not `None`. -/
theorem C3_param_key_presence (q size location latitude longitude : PyVal) :
    (("q", parse_val q PyType.tstr) ∈ buildParams q size location latitude longitude) ∧
    (("size", parse_val size PyType.tint) ∈ buildParams q size location latitude longitude) ∧
    ((∃ v, ("location", v) ∈ buildParams q size location latitude longitude) ↔
      pyTruthy (locNorm location) = true) ∧
    ((∃ v, ("latitude", v) ∈ buildParams q size location latitude longitude) ↔
      parse_val latitude PyType.tfloat ≠ PyVal.none) ∧
    ((∃ v, ("longitude", v) ∈ buildParams q size location latitude longitude) ↔
      parse_val longitude PyType.tfloat ≠ PyVal.none) := by
  have hne : ∀ w : PyVal, (w.isNone = false) ↔ w ≠ PyVal.none := by
    intro w
    constructor
    · intro hf he
      rw [he] at hf
      exact absurd hf (by simp [PyVal.isNone])
    · intro hnn
      cases hx : w.isNone with
      | false => rfl
      | true => exact absurd ((PyVal.isNone_iff w).mp hx) hnn
  refine ⟨buildParams_q_mem q size location latitude longitude,
    buildParams_size_mem q size location latitude longitude, ?_, ?_, ?_⟩
  · cases hl : pyTruthy (locNorm location) <;>
    cases ha : (parse_val latitude PyType.tfloat).isNone <;>
    cases ho : (parse_val longitude PyType.tfloat).isNone <;>
      simp [buildParams, hl, ha, ho]
  · rw [← hne (parse_val latitude PyType.tfloat)]
    cases hl : pyTruthy (locNorm location) <;>
    cases ha : (parse_val latitude PyType.tfloat).isNone <;>
    cases ho : (parse_val longitude PyType.tfloat).isNone <;>
      simp [buildParams, hl, ha, ho]
  · rw [← hne (parse_val longitude PyType.tfloat)]
    cases hl : pyTruthy (locNorm location) <;>
    cases ha : (parse_val latitude PyType.tfloat).isNone <;>
    cases ho : (parse_val longitude PyType.tfloat).isNone <;>
      simp [buildParams, hl, ha, ho]

/-- C4: a location that coerces to a nonempty string is transmitted with
every underscore replaced by a space and then every comma replaced by a
space, and the transmitted value contains neither character. -/
theorem C4_location_cleanup (q size location latitude longitude : PyVal) (s : String)
    (h : parse_val location PyType.tstr = PyVal.str s) (hs : s ≠ "") :
    ("location", PyVal.str (processLocStr s))
        ∈ buildParams q size location latitude longitude ∧
    ∀ c ∈ (processLocStr s).data, c ≠ '_' ∧ c ≠ ',' := by
  have hn := locNorm_of_str location s h hs
  have ht : pyTruthy (PyVal.str (processLocStr s)) = true := by
    simp [pyTruthy, processLocStr_ne_empty s hs]
  refine ⟨?_, processLocStr_no_sep s⟩
  cases ha : (parse_val latitude PyType.tfloat).isNone <;>
  cases ho : (parse_val longitude PyType.tfloat).isNone <;>
    simp [buildParams, hn, ht, ha, ho]

/-- Witness for C4: the location `Los_Angeles, CA` of the spec scenario is
transmitted as `Los Angeles  CA`, with two spaces and no separator
characters. -/
theorem C4_witness :
    processLocStr "Los_Angeles, CA" = "Los Angeles  CA" ∧
    ("location", PyVal.str "Los Angeles  CA")
        ∈ buildParams (PyVal.str "election") (PyVal.int 10)
            (PyVal.str "Los_Angeles, CA") PyVal.none PyVal.none ∧
    ∀ c ∈ ("Los Angeles  CA" : String).data, c ≠ '_' ∧ c ≠ ',' := by
  have hmain := C4_location_cleanup (PyVal.str "election") (PyVal.int 10)
    (PyVal.str "Los_Angeles, CA") PyVal.none PyVal.none "Los_Angeles, CA"
    rfl (by decide)
  exact ⟨rfl, hmain.1, hmain.2⟩

set_option maxRecDepth 8000 in
/-- C5 (code bug): the coercion step is NOT total.  The integer 10 ^ 400 —
deliverable as `latitude`, since the tool accepts arbitrary-precision
integers for its number parameters — makes `float()` raise `OverflowError`
inside `parse_val`; the `except (ValueError, TypeError)` clause of line 33
does not match it, and since the coercions of lines 47-52 run before the
`try` of line 72, the exception propagates out of `news_search`: the call
never reaches the request step.  (The caught-error half of the claim is
real: the size input `abc` does coerce to `None` with the call proceeding —
`parse_valE` returns `Except.ok PyVal.none` there — but one uncaught input
refutes totality.) -/
theorem C5_overflow_uncaught :
    parse_valE (PyVal.int (10 ^ 400)) PyType.tfloat
      = Except.error (PyExc.overflowError "int too large to convert to float") ∧
    (∀ remote : HttpRequest → RemoteOutcome,
      news_searchE Option.none (PyVal.str "election") (PyVal.int 10) PyVal.none
          (PyVal.int (10 ^ 400)) PyVal.none remote
        = Except.error (PyExc.overflowError "int too large to convert to float")) ∧
    parse_valE (PyVal.str "abc") PyType.tint = Except.ok PyVal.none :=
  ⟨rfl, fun _ => rfl, rfl⟩

/-- C10: `int` coercion is asymmetric between floats and numeric strings —
every float truncates toward zero (10.9, written `mkRat 109 10`, becomes 10
and -10.9 becomes -10), while every string containing a decimal point is a
`ValueError` and coerces to `None`, 10.5 included. -/
theorem C10_int_coercion_asymmetry :
    (∀ x : ℚ, parse_val (PyVal.float x) PyType.tint = PyVal.int (ratTrunc x)) ∧
    parse_val (PyVal.float (mkRat 109 10)) PyType.tint = PyVal.int 10 ∧
    parse_val (PyVal.float (mkRat (-109) 10)) PyType.tint = PyVal.int (-10) ∧
    (∀ s : String, '.' ∈ s.data → parse_val (PyVal.str s) PyType.tint = PyVal.none) ∧
    parse_val (PyVal.str "10.5") PyType.tint = PyVal.none := by
  refine ⟨fun x => rfl, rfl, rfl, ?_, rfl⟩
  intro s h
  simp [parse_val, pyInt, pyIntOfString_dot s h]

/-- Witness for C10, discharging the decimal-point hypothesis at `10.5`. -/
theorem C10_witness :
    parse_val (PyVal.str "10.5") PyType.tint = PyVal.none ∧
    '.' ∈ ("10.5" : String).data :=
  ⟨C10_int_coercion_asymmetry.2.2.2.1 "10.5" (by decide), by decide⟩

/-- Witness for C9: a bare string body is returned as a bare string. -/
theorem C9_witness :
    news_search Option.none (PyVal.str "x") (PyVal.int 10) PyVal.none PyVal.none PyVal.none
        (fun _ => RemoteOutcome.response 200 (JsonBody.ok (Json.jstr "hello")))
      = Json.jstr "hello" :=
  (C9_scalar_body_passthrough Option.none (PyVal.str "x") (PyVal.int 10)
      PyVal.none PyVal.none PyVal.none
      (fun _ => RemoteOutcome.response 200 (JsonBody.ok (Json.jstr "hello")))
      200 (Json.jstr "hello") rfl (by decide)
      (fun xs hx => Json.noConfusion hx)).1

end Aigeon
